import Mathlib

/-!
Shallow embedding of the jellyfin-web library-view configuration engine:
the filter-extraction / query-building helpers of `utils/items.ts` and the
rendering-option and derived-flag logic of
`src/apps/experimental/components/library/ItemsView.tsx`.

TypeScript `undefined`/`null` values are modelled with `Option`; optional
chaining (`a?.b`) becomes `Option.bind`; JavaScript truthiness is made
explicit at each use site.
-/

/-- Modelled from the spec: the view-category enum (`types/libraryTab.ts` is
not part of the reviewed sources). The spec lists Movies, Episodes, Songs,
Artists, Albums, Networks and a generic fallback; each enum member carries a
lower-case string tag used when the category is interpolated into a string. -/
inductive LibraryTab where
  | Movies
  | Episodes
  | Songs
  | Artists
  | Albums
  | Networks
  | Generic
  deriving DecidableEq, Repr, Fintype

/-- Modelled from the spec: the string tag each view-category member
interpolates to (lower-case names as in the host application). -/
def libraryTabTag : LibraryTab → String
  | .Movies => "movies"
  | .Episodes => "episodes"
  | .Songs => "songs"
  | .Artists => "artists"
  | .Albums => "albums"
  | .Networks => "networks"
  | .Generic => "generic"

/-- Modelled from the spec: video-basic filter flags (HD/SD/4K/3D),
`types/library.ts` not being part of the reviewed sources. -/
inductive VideoBasicFilter where
  | IsHD
  | IsSD
  | Is4K
  | Is3D
  deriving DecidableEq, Repr

/-- Modelled from the spec: the five feature-filter flags. -/
inductive FeatureFilters where
  | HasSubtitles
  | HasTrailer
  | HasSpecialFeature
  | HasThemeSong
  | HasThemeVideo
  deriving DecidableEq, Repr

/-- Modelled from the spec: episode filter flags. -/
inductive EpisodeFilter where
  | ParentIndexNumber
  | IsMissing
  | IsUnaired
  deriving DecidableEq, Repr

/-- Image-type enum (the members used by the reviewed code). -/
inductive ImageType where
  | Primary
  | Banner
  | Disc
  | Logo
  | Thumb
  deriving DecidableEq, Repr

/-- View-mode enum. -/
inductive ViewMode where
  | GridView
  | ListView
  deriving DecidableEq, Repr

/-- Sort-order enum. -/
inductive SortOrder where
  | Ascending
  | Descending
  deriving DecidableEq, Repr

/-- The sort-field identifiers of the SDK string enum `ItemSortBy`
(`@jellyfin/sdk/lib/models/api/item-sort-by`, an external dependency of the
reviewed code). Each member is a string in TypeScript; `itemSortByStr` below
gives that string. -/
inductive ItemSortBy where
  | AiredEpisodeOrder
  | Album
  | AlbumArtist
  | Artist
  | DateCreated
  | OfficialRating
  | DatePlayed
  | PremiereDate
  | StartDate
  | SortName
  | Name
  | Random
  | Runtime
  | CommunityRating
  | ProductionYear
  | PlayCount
  | CriticRating
  | IsFolder
  | IsUnplayed
  | IsPlayed
  | SeriesSortName
  | VideoBitRate
  | AirTime
  | Studio
  | IsFavoriteOrLiked
  | DateLastContentAdded
  | SeriesDatePlayed
  | ParentIndexNumber
  | IndexNumber
  deriving DecidableEq, Repr, Fintype

/-- The string value of each `ItemSortBy` member in the SDK enum. -/
def itemSortByStr : ItemSortBy → String
  | .AiredEpisodeOrder => "AiredEpisodeOrder"
  | .Album => "Album"
  | .AlbumArtist => "AlbumArtist"
  | .Artist => "Artist"
  | .DateCreated => "DateCreated"
  | .OfficialRating => "OfficialRating"
  | .DatePlayed => "DatePlayed"
  | .PremiereDate => "PremiereDate"
  | .StartDate => "StartDate"
  | .SortName => "SortName"
  | .Name => "Name"
  | .Random => "Random"
  | .Runtime => "Runtime"
  | .CommunityRating => "CommunityRating"
  | .ProductionYear => "ProductionYear"
  | .PlayCount => "PlayCount"
  | .CriticRating => "CriticRating"
  | .IsFolder => "IsFolder"
  | .IsUnplayed => "IsUnplayed"
  | .IsPlayed => "IsPlayed"
  | .SeriesSortName => "SeriesSortName"
  | .VideoBitRate => "VideoBitRate"
  | .AirTime => "AirTime"
  | .Studio => "Studio"
  | .IsFavoriteOrLiked => "IsFavoriteOrLiked"
  | .DateLastContentAdded => "DateLastContentAdded"
  | .SeriesDatePlayed => "SeriesDatePlayed"
  | .ParentIndexNumber => "ParentIndexNumber"
  | .IndexNumber => "IndexNumber"

/-- Fields enum members used by `getItemFieldsEnum`. -/
inductive ItemFields where
  | BasicSyncInfo
  | MediaSourceCount
  | PrimaryImageAspectRatio
  | DateCreated
  deriving DecidableEq, Repr

/-- Modelled from the spec: the structured filter selection
(`Filters` in `types/library.ts`, not part of the reviewed sources). Every
field is an optional set-like collection; the flag collections use the enums
above and the free-form facets are collections of strings (years of numbers). -/
structure Filters where
  VideoBasicFilter : Option (List VideoBasicFilter) := none
  Features : Option (List FeatureFilters) := none
  EpisodeFilter : Option (List EpisodeFilter) := none
  SeriesStatus : Option (List String) := none
  VideoTypes : Option (List String) := none
  Status : Option (List String) := none
  Genres : Option (List String) := none
  OfficialRatings : Option (List String) := none
  Tags : Option (List String) := none
  Years : Option (List Nat) := none
  StudioIds : Option (List String) := none
  deriving DecidableEq, Repr

/-- Modelled from the spec: the persisted view-settings record
(`LibraryViewSettings` in `types/library.ts`, not part of the reviewed
sources). `SortBy` holds a single sort-field identifier — the reviewed
default factory assigns the single member `ItemSortBy.SortName` to it.
`Alphabet` is an optional single-character string (TypeScript
`string | null`, both absences collapsed into `none`). -/
structure LibraryViewSettings where
  ShowTitle : Bool
  ShowYear : Bool
  ViewMode : ViewMode
  ImageType : ImageType
  CardLayout : Bool
  SortBy : ItemSortBy
  SortOrder : SortOrder
  StartIndex : Nat
  Filters : Option Filters := none
  Alphabet : Option String := none
  deriving DecidableEq, Repr

/-- `xs?.includes(x)` for an optional collection: `false` when the collection
is absent (JavaScript `undefined` is falsy), membership otherwise. -/
def optIncludes {α : Type} [DecidableEq α] (l : Option (List α)) (x : α) : Bool :=
  match l with
  | none => false
  | some xs => xs.contains x

/-- Result record of `getVideoBasicFilter`. -/
structure VideoBasicQuery where
  isHd : Option Bool
  is4K : Option Bool
  is3D : Option Bool
  deriving DecidableEq, Repr

/-- `getVideoBasicFilter` from `utils/items.ts`: `isHd` starts undefined, is
set to `true` when the HD flag is selected, then set to `false` when the SD
flag is selected (the second assignment overwrites the first); `is4K`/`is3D`
are `true` when selected, absent otherwise. -/
def getVideoBasicFilter (s : LibraryViewSettings) : VideoBasicQuery :=
  let vbf := s.Filters.bind fun f => f.VideoBasicFilter
  let isHd0 : Option Bool :=
    if optIncludes vbf VideoBasicFilter.IsHD then some true else none
  let isHd1 : Option Bool :=
    if optIncludes vbf VideoBasicFilter.IsSD then some false else isHd0
  { isHd := isHd1
    is4K := if optIncludes vbf VideoBasicFilter.Is4K then some true else none
    is3D := if optIncludes vbf VideoBasicFilter.Is3D then some true else none }

/-- Result record of `getEpisodeFilter`. -/
structure EpisodeQuery where
  parentIndexNumber : Option Nat
  isMissing : Option Bool
  isUnaired : Option Bool
  deriving DecidableEq, Repr

/-- `getEpisodeFilter` from `utils/items.ts`: `parentIndexNumber` is the
literal `0` when the flag is selected, `isMissing` is the double-negated
membership test (a present boolean) but only for the Episodes category, and
`isUnaired` is `true` when selected, absent otherwise. -/
def getEpisodeFilter (viewType : LibraryTab) (s : LibraryViewSettings) : EpisodeQuery :=
  let ef := s.Filters.bind fun f => f.EpisodeFilter
  { parentIndexNumber :=
      if optIncludes ef EpisodeFilter.ParentIndexNumber then some 0 else none
    isMissing :=
      if viewType = LibraryTab.Episodes then
        some (optIncludes ef EpisodeFilter.IsMissing)
      else
        none
    isUnaired := if optIncludes ef EpisodeFilter.IsUnaired then some true else none }

/-- `getItemFieldsEnum` from `utils/items.ts`: starts from an empty array and
pushes sync-info and media-source-count for non-network categories, the
primary-image aspect-ratio field whenever the configured image type is
Primary, and creation-date plus aspect-ratio for the networks category. -/
def getItemFieldsEnum (viewType : LibraryTab) (s : LibraryViewSettings) : List ItemFields :=
  let itemFields : List ItemFields := []
  let itemFields :=
    if viewType ≠ LibraryTab.Networks then
      itemFields ++ [ItemFields.BasicSyncInfo, ItemFields.MediaSourceCount]
    else itemFields
  let itemFields :=
    if s.ImageType = ImageType.Primary then
      itemFields ++ [ItemFields.PrimaryImageAspectRatio]
    else itemFields
  let itemFields :=
    if viewType = LibraryTab.Networks then
      itemFields ++ [ItemFields.DateCreated, ItemFields.PrimaryImageAspectRatio]
    else itemFields
  itemFields

/-- Result record of `getFieldsQuery`. -/
structure FieldsQuery where
  fields : List ItemFields
  deriving DecidableEq, Repr

/-- `getFieldsQuery` from `utils/items.ts`. -/
def getFieldsQuery (viewType : LibraryTab) (s : LibraryViewSettings) : FieldsQuery :=
  { fields := getItemFieldsEnum viewType s }

/-- Result record of `getAlphaPickerQuery`. -/
structure AlphaPickerQuery where
  nameLessThan : Option String
  nameStartsWith : Option String
  deriving DecidableEq, Repr

/-- `getAlphaPickerQuery` from `utils/items.ts`: a `null` alphabet is first
normalised to `undefined` (both are `none` here); the `#` sentinel produces
the exclusive upper bound `"A"` and suppresses the prefix constraint, any
other selected value becomes the prefix constraint. -/
def getAlphaPickerQuery (s : LibraryViewSettings) : AlphaPickerQuery :=
  let alphabetValue := s.Alphabet
  { nameLessThan := if alphabetValue = some "#" then some "A" else none
    nameStartsWith := if alphabetValue = some "#" then none else alphabetValue }

/-- Serialization of the optional parent id inside a template literal:
JavaScript interpolates an absent value as the token `"null"`. -/
def parentIdString : Option String → String
  | none => "null"
  | some p => p

/-- `getSettingsKey` from `utils/items.ts`: the template literal
`viewType - parentId` (the category's string tag, a space-dash-space
separator, then the interpolated parent id). -/
def getSettingsKey (viewType : LibraryTab) (parentId : Option String) : String :=
  libraryTabTag viewType ++ " - " ++ parentIdString parentId

/-- Result record of `getCardOptions` in `ItemsView.tsx` (the fields the
reviewed code populates; optional fields stay absent unless a branch sets
them). -/
structure CardOptions where
  shape : String
  showTitle : Bool
  showYear : Bool
  cardLayout : Bool
  centerText : Bool
  context : Option String
  coverImage : Bool
  preferThumb : Option Bool
  preferDisc : Option Bool
  preferLogo : Option Bool
  overlayPlayButton : Bool
  overlayMoreButton : Bool
  overlayText : Bool
  showParentTitle : Option Bool
  lines : Nat
  deriving DecidableEq, Repr

/-- `getCardOptions` from `ItemsView.tsx`: the image-type→shape chain sets
shape plus at most one preference flag; the base record copies the settings
fields; the Songs/Albums/Episodes branch adds a parent title mirroring title
visibility, the Artists branch forces the year off and one label line; the
`lines` local (2 when titles shown, else 0, overwritten to 1 in the Artists
branch) is written into the record last. -/
def getCardOptions (viewType : LibraryTab) (collectionType : Option String)
    (s : LibraryViewSettings) : CardOptions :=
  let lines0 : Nat := if s.ShowTitle then 2 else 0
  let shape : String :=
    if s.ImageType = ImageType.Banner then "banner"
    else if s.ImageType = ImageType.Disc then "square"
    else if s.ImageType = ImageType.Logo then "backdrop"
    else if s.ImageType = ImageType.Thumb then "backdrop"
    else "auto"
  let preferDisc : Option Bool :=
    if s.ImageType ≠ ImageType.Banner ∧ s.ImageType = ImageType.Disc then some true else none
  let preferLogo : Option Bool :=
    if s.ImageType ≠ ImageType.Banner ∧ s.ImageType ≠ ImageType.Disc ∧
        s.ImageType = ImageType.Logo then some true else none
  let preferThumb : Option Bool :=
    if s.ImageType ≠ ImageType.Banner ∧ s.ImageType ≠ ImageType.Disc ∧
        s.ImageType ≠ ImageType.Logo ∧ s.ImageType = ImageType.Thumb then some true else none
  let base : CardOptions :=
    { shape := shape
      showTitle := s.ShowTitle
      showYear := s.ShowYear
      cardLayout := s.CardLayout
      centerText := true
      context := collectionType
      coverImage := true
      preferThumb := preferThumb
      preferDisc := preferDisc
      preferLogo := preferLogo
      overlayPlayButton := false
      overlayMoreButton := true
      overlayText := !s.ShowTitle
      showParentTitle := none
      lines := 0 }
  let branched : CardOptions × Nat :=
    if viewType = LibraryTab.Songs ∨ viewType = LibraryTab.Albums ∨
        viewType = LibraryTab.Episodes then
      ({ base with showParentTitle := some s.ShowTitle }, lines0)
    else if viewType = LibraryTab.Artists then
      ({ base with showYear := false }, 1)
    else
      (base, lines0)
  { branched.1 with lines := branched.2 }

/-- `hasFilters` from `ItemsView.tsx`:
`Object.values(libraryViewSettings.Filters ?? {}).some(filter => !!filter)`.
An absent `Filters` object contributes no values; a present field is an
array, and an array is truthy in JavaScript even when empty, so the
reduction is exactly "some field of the filter structure is present". -/
def hasFilters (s : LibraryViewSettings) : Bool :=
  match s.Filters with
  | none => false
  | some f =>
    f.VideoBasicFilter.isSome || f.Features.isSome || f.EpisodeFilter.isSome ||
    f.SeriesStatus.isSome || f.VideoTypes.isSome || f.Status.isSome ||
    f.Genres.isSome || f.OfficialRatings.isSome || f.Tags.isSome ||
    f.Years.isSome || f.StudioIds.isSome

/-- `needle` occurs as a contiguous substring of the character list
(JavaScript `String.prototype.includes`). -/
def strIncludesChars (needle : List Char) : List Char → Bool
  | [] => needle.isEmpty
  | c :: rest => needle.isPrefixOf (c :: rest) || strIncludesChars needle rest

/-- `hasSortName` from `ItemsView.tsx`:
`libraryViewSettings.SortBy.includes(ItemSortBy.SortName)`. `SortBy` holds a
single `ItemSortBy` string value, so `.includes` is the string-method
substring test, not array membership. -/
def hasSortName (s : LibraryViewSettings) : Bool :=
  strIncludesChars "SortName".data (itemSortByStr s.SortBy).data

/-- `getDefaultLibraryViewSettings` from `utils/items.ts`. -/
def getDefaultLibraryViewSettings (viewType : LibraryTab) : LibraryViewSettings :=
  { ShowTitle := true
    ShowYear := false
    ViewMode := if viewType = LibraryTab.Songs then ViewMode.ListView else ViewMode.GridView
    ImageType := if viewType = LibraryTab.Networks then ImageType.Thumb else ImageType.Primary
    CardLayout := false
    SortBy := ItemSortBy.SortName
    SortOrder := SortOrder.Ascending
    StartIndex := 0
    Filters := none
    Alphabet := none }

/-- The source expression `libraryViewSettings.Filters?.VideoBasicFilter?.includes(x)`
as a predicate on settings records (used to state theorems about
`getVideoBasicFilter`). -/
def selectedVideoFilter (s : LibraryViewSettings) (x : VideoBasicFilter) : Bool :=
  optIncludes (s.Filters.bind fun f => f.VideoBasicFilter) x

/-- The source expression `libraryViewSettings.Filters?.EpisodeFilter?.includes(x)`
as a predicate on settings records (used to state theorems about
`getEpisodeFilter`). -/
def selectedEpisodeFilter (s : LibraryViewSettings) (x : EpisodeFilter) : Bool :=
  optIncludes (s.Filters.bind fun f => f.EpisodeFilter) x

/-- An optional collection is present and non-empty (the spec's notion of a
field holding an actual selection, under which an empty collection counts as
no selection). -/
def optNonEmpty {α : Type} (o : Option (List α)) : Bool :=
  match o with
  | none => false
  | some l => !l.isEmpty

/-- Spec-side reading of `hasFilters` (for comparison with the code's
`hasFilters`): true iff at least one entry anywhere in the filter selection
structure is non-empty, an empty collection counting as no selection. -/
def specHasFilters (s : LibraryViewSettings) : Bool :=
  match s.Filters with
  | none => false
  | some f =>
    optNonEmpty f.VideoBasicFilter || optNonEmpty f.Features ||
    optNonEmpty f.EpisodeFilter || optNonEmpty f.SeriesStatus ||
    optNonEmpty f.VideoTypes || optNonEmpty f.Status ||
    optNonEmpty f.Genres || optNonEmpty f.OfficialRatings ||
    optNonEmpty f.Tags || optNonEmpty f.Years || optNonEmpty f.StudioIds

/-- Spec-side reading of `hasSortName` (for comparison with the code's
`hasSortName`): the configured sort-field sequence — the record holds a
single sort field — includes the member `ItemSortBy.SortName`. -/
def specHasSortName (s : LibraryViewSettings) : Bool :=
  [s.SortBy].contains ItemSortBy.SortName

/-- A filter structure selecting both the HD and the SD flag. -/
def vbBothFilters : Filters :=
  { VideoBasicFilter := some [VideoBasicFilter.IsHD, VideoBasicFilter.IsSD] }

/-- A settings record whose video-basic filter selects both HD and SD. -/
def hdSdRec : LibraryViewSettings :=
  { getDefaultLibraryViewSettings LibraryTab.Movies with Filters := some vbBothFilters }

/-- A filter structure whose only present field is an empty genre list. -/
def emptyGenresFilters : Filters :=
  { Genres := some ([] : List String) }

/-- A settings record whose filter structure holds only an empty genre
collection. -/
def emptyGenresRec : LibraryViewSettings :=
  { getDefaultLibraryViewSettings LibraryTab.Movies with Filters := some emptyGenresFilters }

/-- A settings record sorting by the series sort name. -/
def seriesSortNameRec : LibraryViewSettings :=
  { getDefaultLibraryViewSettings LibraryTab.Movies with SortBy := ItemSortBy.SeriesSortName }

/-- A settings record with the alphabet selection `B`. -/
def alphabetBRec : LibraryViewSettings :=
  { getDefaultLibraryViewSettings LibraryTab.Movies with Alphabet := some "B" }

/-- A settings record whose episode filter selects the is-missing flag. -/
def isMissingRec : LibraryViewSettings :=
  { getDefaultLibraryViewSettings LibraryTab.Episodes with
      Filters := some { EpisodeFilter := some [EpisodeFilter.IsMissing] } }

/-- `String.append` acts as list append on the underlying character data. -/
theorem data_append (s t : String) : (s ++ t).data = s.data ++ t.data := rfl

/-- Splitting lemma: a character list of the form `l ++ ' ' :: r` with `l`
space-free determines `l` and `r` uniquely. -/
theorem charlist_split {l1 l2 r1 r2 : List Char}
    (h1 : ' ' ∉ l1) (h2 : ' ' ∉ l2)
    (h : l1 ++ ' ' :: r1 = l2 ++ ' ' :: r2) : l1 = l2 ∧ r1 = r2 := by
  induction l1 generalizing l2 with
  | nil =>
    cases l2 with
    | nil => simpa using h
    | cons d ds =>
      simp only [List.nil_append, List.cons_append, List.cons.injEq] at h
      exact absurd (h.1 ▸ List.mem_cons_self _ _) h2
  | cons c cs ih =>
    cases l2 with
    | nil =>
      simp only [List.nil_append, List.cons_append, List.cons.injEq] at h
      exact absurd (h.1 ▸ List.mem_cons_self _ _) h1
    | cons d ds =>
      simp only [List.cons_append, List.cons.injEq] at h
      obtain ⟨rfl, h'⟩ := h
      have h1' : ' ' ∉ cs := fun hm => h1 (List.mem_cons_of_mem _ hm)
      have h2' : ' ' ∉ ds := fun hm => h2 (List.mem_cons_of_mem _ hm)
      obtain ⟨rfl, hr⟩ := ih h1' h2' h'
      exact ⟨rfl, hr⟩

/-- No view-category tag contains a space character. -/
theorem libraryTabTag_no_space (c : LibraryTab) : ' ' ∉ (libraryTabTag c).data := by
  cases c <;> decide

/-- The view-category tags are pairwise distinct. -/
theorem libraryTabTag_inj : ∀ c1 c2 : LibraryTab,
    libraryTabTag c1 = libraryTabTag c2 → c1 = c2 := by decide

/-- Parent-id serialization is injective away from the literal placeholder
string `"null"`. -/
theorem parentIdString_inj {p1 p2 : Option String}
    (h1 : p1 ≠ some "null") (h2 : p2 ≠ some "null")
    (h : parentIdString p1 = parentIdString p2) : p1 = p2 := by
  cases p1 with
  | none =>
    cases p2 with
    | none => rfl
    | some q => exact absurd (congrArg some h.symm ▸ rfl) h2
  | some p =>
    cases p2 with
    | none => exact absurd (congrArg some h ▸ rfl) h1
    | some q => exact congrArg some h

/-- The character data of a settings key: the category tag, a space, a dash,
a space, then the serialized parent id. -/
theorem key_data (c : LibraryTab) (p : Option String) :
    (getSettingsKey c p).data =
      (libraryTabTag c).data ++ ' ' :: '-' :: ' ' :: (parentIdString p).data := by
  show (libraryTabTag c ++ " - " ++ parentIdString p).data = _
  rw [data_append, data_append, List.append_assoc]
  rfl

/-- Claim C4 (counterexample): the settings key is not injective over the
whole category × parent-id space — a present parent id equal to the string
`"null"` produces the same key as an absent parent id, because the absent
case is serialized as the literal token `null`. -/
theorem getSettingsKey_null_collision :
    getSettingsKey LibraryTab.Movies (some "null") = getSettingsKey LibraryTab.Movies none ∧
    (some "null" : Option String) ≠ (none : Option String) :=
  ⟨rfl, by decide⟩

/-- Claim C4 (amended): the settings key `category - parentId` is injective
over categories and parent ids as long as no present parent id equals the
literal placeholder string `"null"` that an absent parent id serializes to:
under that proviso, keys agree exactly when both the category and the parent
id agree. -/
theorem getSettingsKey_injective (c1 c2 : LibraryTab) (p1 p2 : Option String)
    (h1 : p1 ≠ some "null") (h2 : p2 ≠ some "null") :
    getSettingsKey c1 p1 = getSettingsKey c2 p2 ↔ (c1 = c2 ∧ p1 = p2) := by
  constructor
  · intro h
    have hd := congrArg String.data h
    rw [key_data, key_data] at hd
    obtain ⟨ht, hr⟩ :=
      charlist_split (libraryTabTag_no_space c1) (libraryTabTag_no_space c2) hd
    have hc := libraryTabTag_inj c1 c2 (String.ext ht)
    have hp : (parentIdString p1).data = (parentIdString p2).data := by
      injection hr with hr1 hr2
      injection hr2
    exact ⟨hc, parentIdString_inj h1 h2 (String.ext hp)⟩
  · rintro ⟨rfl, rfl⟩
    rfl

/-- Claim C4 (witness): the amended injectivity theorem evaluated at the
songs category and a concrete parent id. -/
theorem getSettingsKey_injective_witness :
    (some "abc123" : Option String) ≠ some "null" ∧
    (getSettingsKey LibraryTab.Songs (some "abc123") =
        getSettingsKey LibraryTab.Songs (some "abc123") ↔
      (LibraryTab.Songs = LibraryTab.Songs ∧
        (some "abc123" : Option String) = some "abc123")) :=
  ⟨by decide,
   getSettingsKey_injective LibraryTab.Songs LibraryTab.Songs
     (some "abc123") (some "abc123") (by decide) (by decide)⟩

/-- Claim C1 (counterexample): when the HD and SD flags are simultaneously
selected, the extracted `isHd` is `false` — the SD assignment runs second and
overwrites the HD one — not `true` as the claimed HD tie-break states. -/
theorem getVideoBasicFilter_hd_sd_counterexample :
    selectedVideoFilter hdSdRec VideoBasicFilter.IsHD = true ∧
    selectedVideoFilter hdSdRec VideoBasicFilter.IsSD = true ∧
    (getVideoBasicFilter hdSdRec).isHd = some false ∧
    (getVideoBasicFilter hdSdRec).isHd ≠ some true := by
  refine ⟨rfl, rfl, rfl, ?_⟩
  decide

/-- Claim C1 (amended): `isHd` is `true` when only the HD flag is selected,
`false` when the SD flag is selected (SD takes precedence over HD when both
are present, the SD assignment being the later one), and absent when neither
is selected; `is4K` and `is3D` are `true` exactly when their flag is
selected and absent otherwise, never `false`. -/
theorem getVideoBasicFilter_amended (s : LibraryViewSettings) :
    (selectedVideoFilter s VideoBasicFilter.IsSD = true →
      (getVideoBasicFilter s).isHd = some false) ∧
    (selectedVideoFilter s VideoBasicFilter.IsHD = true →
      selectedVideoFilter s VideoBasicFilter.IsSD = false →
      (getVideoBasicFilter s).isHd = some true) ∧
    (selectedVideoFilter s VideoBasicFilter.IsHD = false →
      selectedVideoFilter s VideoBasicFilter.IsSD = false →
      (getVideoBasicFilter s).isHd = none) ∧
    ((getVideoBasicFilter s).is4K = some true ↔
      selectedVideoFilter s VideoBasicFilter.Is4K = true) ∧
    ((getVideoBasicFilter s).is4K = none ↔
      selectedVideoFilter s VideoBasicFilter.Is4K = false) ∧
    (getVideoBasicFilter s).is4K ≠ some false ∧
    ((getVideoBasicFilter s).is3D = some true ↔
      selectedVideoFilter s VideoBasicFilter.Is3D = true) ∧
    ((getVideoBasicFilter s).is3D = none ↔
      selectedVideoFilter s VideoBasicFilter.Is3D = false) ∧
    (getVideoBasicFilter s).is3D ≠ some false := by
  unfold getVideoBasicFilter selectedVideoFilter
  cases hHD : optIncludes (s.Filters.bind fun f => f.VideoBasicFilter) VideoBasicFilter.IsHD <;>
    cases hSD : optIncludes (s.Filters.bind fun f => f.VideoBasicFilter) VideoBasicFilter.IsSD <;>
    cases h4K : optIncludes (s.Filters.bind fun f => f.VideoBasicFilter) VideoBasicFilter.Is4K <;>
    cases h3D : optIncludes (s.Filters.bind fun f => f.VideoBasicFilter) VideoBasicFilter.Is3D <;>
    simp [hHD, hSD, h4K, h3D]

/-- Claim C1 (witness): the amended theorem applied at the record selecting
both HD and SD, via its SD clause. -/
theorem getVideoBasicFilter_amended_witness :
    selectedVideoFilter hdSdRec VideoBasicFilter.IsSD = true ∧
    (getVideoBasicFilter hdSdRec).isHd = some false :=
  ⟨by decide, (getVideoBasicFilter_amended hdSdRec).1 (by decide)⟩

/-- Claim C6: the extracted `isMissing` episode filter is non-absent only for
the Episodes category — with category Episodes and the is-missing flag
selected it is `true`, and for every other category it is absent regardless
of the stored flag. -/
theorem getEpisodeFilter_isMissing_gate (v : LibraryTab) (s : LibraryViewSettings) :
    (v = LibraryTab.Episodes →
      selectedEpisodeFilter s EpisodeFilter.IsMissing = true →
      (getEpisodeFilter v s).isMissing = some true) ∧
    (v ≠ LibraryTab.Episodes → (getEpisodeFilter v s).isMissing = none) := by
  unfold getEpisodeFilter selectedEpisodeFilter
  by_cases hv : v = LibraryTab.Episodes <;> simp [hv]

/-- Claim C6 (witness): the gate theorem applied at the Episodes category
with the is-missing flag selected, and at the Movies category with the same
stored flag. -/
theorem getEpisodeFilter_isMissing_gate_witness :
    selectedEpisodeFilter isMissingRec EpisodeFilter.IsMissing = true ∧
    (getEpisodeFilter LibraryTab.Episodes isMissingRec).isMissing = some true ∧
    (getEpisodeFilter LibraryTab.Movies isMissingRec).isMissing = none :=
  ⟨by decide,
   (getEpisodeFilter_isMissing_gate LibraryTab.Episodes isMissingRec).1 rfl (by decide),
   (getEpisodeFilter_isMissing_gate LibraryTab.Movies isMissingRec).2 (by decide)⟩

/-- Claim C10: for the Episodes category `isMissing` is always a present
boolean — when the is-missing flag is not selected (in particular when the
whole filter structure is absent) the result is the explicit value `false`,
not absent. -/
theorem getEpisodeFilter_isMissing_present (s : LibraryViewSettings) :
    (selectedEpisodeFilter s EpisodeFilter.IsMissing = false →
      (getEpisodeFilter LibraryTab.Episodes s).isMissing = some false) ∧
    (s.Filters = none →
      (getEpisodeFilter LibraryTab.Episodes s).isMissing = some false) ∧
    (getEpisodeFilter LibraryTab.Episodes s).isMissing ≠ none := by
  unfold getEpisodeFilter selectedEpisodeFilter
  refine ⟨fun h => by simp [h], fun h => by simp [h, optIncludes], by simp⟩

/-- Claim C10 (witness): the theorem applied at a freshly-defaulted Episodes
record, whose filter structure is absent. -/
theorem getEpisodeFilter_isMissing_present_witness :
    (getDefaultLibraryViewSettings LibraryTab.Episodes).Filters = none ∧
    (getEpisodeFilter LibraryTab.Episodes
      (getDefaultLibraryViewSettings LibraryTab.Episodes)).isMissing = some false :=
  ⟨rfl,
   (getEpisodeFilter_isMissing_present
     (getDefaultLibraryViewSettings LibraryTab.Episodes)).2.1 rfl⟩

/-- Claim C2 (counterexample): a filter structure whose only present field is
an empty genre collection makes the code's `hasFilters` `true` — a present
array is truthy in JavaScript even when empty — while under the claim's
reading (an empty collection counts as no selection) the flag would be
`false`. -/
theorem hasFilters_empty_collection_counterexample :
    hasFilters emptyGenresRec = true ∧
    specHasFilters emptyGenresRec = false ∧
    emptyGenresRec.Filters = some emptyGenresFilters ∧
    emptyGenresFilters.Genres = some ([] : List String) := by
  refine ⟨rfl, rfl, rfl, rfl⟩

/-- Claim C2 (amended): `hasFilters` is true iff the filter structure is
present and at least one of its fields is present, a present-but-empty
collection counting as a selection; it is `false` for a freshly-defaulted
record and becomes `true` after a single genre is added. -/
theorem hasFilters_amended (s : LibraryViewSettings) (v : LibraryTab) (g : String) :
    (hasFilters s = true ↔ ∃ f, s.Filters = some f ∧
      (f.VideoBasicFilter.isSome = true ∨ f.Features.isSome = true ∨
       f.EpisodeFilter.isSome = true ∨ f.SeriesStatus.isSome = true ∨
       f.VideoTypes.isSome = true ∨ f.Status.isSome = true ∨
       f.Genres.isSome = true ∨ f.OfficialRatings.isSome = true ∨
       f.Tags.isSome = true ∨ f.Years.isSome = true ∨
       f.StudioIds.isSome = true)) ∧
    hasFilters (getDefaultLibraryViewSettings v) = false ∧
    hasFilters
      { getDefaultLibraryViewSettings v with
          Filters := some { Genres := some [g] } } = true := by
  refine ⟨?_, rfl, rfl⟩
  cases hf : s.Filters with
  | none => simp [hasFilters, hf]
  | some f => simp [hasFilters, hf, or_assoc]

/-- Claim C9 (counterexample): a record sorting by `SeriesSortName` makes the
code's `hasSortName` `true` — `SortBy` is a single string value and
`.includes` is the substring test, and `"SortName"` occurs inside
`"SeriesSortName"` — while the claimed sequence-membership reading gives
`false`. -/
theorem hasSortName_seriesSortName_counterexample :
    hasSortName seriesSortNameRec = true ∧
    specHasSortName seriesSortNameRec = false ∧
    seriesSortNameRec.SortBy = ItemSortBy.SeriesSortName := by
  refine ⟨by decide, by decide, rfl⟩

/-- Claim C9 (amended): `hasSortName` is true iff the sort-by-name identifier
occurs as a substring of the single configured sort field's string value —
over the sort-field enum, exactly when `SortBy` is `SortName` or
`SeriesSortName`. -/
theorem hasSortName_amended (s : LibraryViewSettings) :
    hasSortName s = true ↔
      (s.SortBy = ItemSortBy.SortName ∨ s.SortBy = ItemSortBy.SeriesSortName) := by
  cases h : s.SortBy <;> simp only [hasSortName, h] <;> decide

/-- Claim C8: the default settings factory yields view mode List exactly for
the songs category and Grid otherwise, image type Thumb exactly for the
networks category and Primary otherwise, title shown, year hidden, card
layout off, sort by name ascending, pagination offset 0, and no filters and
no alphabet selection. -/
theorem getDefaultLibraryViewSettings_spec (v : LibraryTab) :
    ((getDefaultLibraryViewSettings v).ViewMode = ViewMode.ListView ↔
      v = LibraryTab.Songs) ∧
    ((getDefaultLibraryViewSettings v).ViewMode = ViewMode.GridView ↔
      v ≠ LibraryTab.Songs) ∧
    ((getDefaultLibraryViewSettings v).ImageType = ImageType.Thumb ↔
      v = LibraryTab.Networks) ∧
    ((getDefaultLibraryViewSettings v).ImageType = ImageType.Primary ↔
      v ≠ LibraryTab.Networks) ∧
    (getDefaultLibraryViewSettings v).ShowTitle = true ∧
    (getDefaultLibraryViewSettings v).ShowYear = false ∧
    (getDefaultLibraryViewSettings v).CardLayout = false ∧
    (getDefaultLibraryViewSettings v).SortBy = ItemSortBy.SortName ∧
    (getDefaultLibraryViewSettings v).SortOrder = SortOrder.Ascending ∧
    (getDefaultLibraryViewSettings v).StartIndex = 0 ∧
    (getDefaultLibraryViewSettings v).Filters = none ∧
    (getDefaultLibraryViewSettings v).Alphabet = none := by
  cases v <;> decide

/-- Claim C3: the field-selection query requests the sync-info field and the
media-source-count field each exactly for non-network categories — so for
the networks category each of the two is individually omitted; the networks
category requests creation-date (and the aspect-ratio field) instead; and
for non-network categories the aspect-ratio field is requested exactly when
the configured image type is Primary. -/
theorem getFieldsQuery_spec (v : LibraryTab) (s : LibraryViewSettings) :
    (ItemFields.BasicSyncInfo ∈ (getFieldsQuery v s).fields ↔
      v ≠ LibraryTab.Networks) ∧
    (ItemFields.MediaSourceCount ∈ (getFieldsQuery v s).fields ↔
      v ≠ LibraryTab.Networks) ∧
    (ItemFields.DateCreated ∈ (getFieldsQuery v s).fields ↔
      v = LibraryTab.Networks) ∧
    (v = LibraryTab.Networks →
      ItemFields.PrimaryImageAspectRatio ∈ (getFieldsQuery v s).fields) ∧
    (v ≠ LibraryTab.Networks →
      (ItemFields.PrimaryImageAspectRatio ∈ (getFieldsQuery v s).fields ↔
        s.ImageType = ImageType.Primary)) := by
  cases v <;> by_cases hit : s.ImageType = ImageType.Primary <;>
    simp [getFieldsQuery, getItemFieldsEnum, hit]

/-- Claim C3 (witness): the theorem applied at the movies category with the
defaulted record (image type Primary) — the aspect-ratio clause holds
there. -/
theorem getFieldsQuery_spec_witness :
    LibraryTab.Movies ≠ LibraryTab.Networks ∧
    (ItemFields.PrimaryImageAspectRatio ∈
        (getFieldsQuery LibraryTab.Movies
          (getDefaultLibraryViewSettings LibraryTab.Movies)).fields ↔
      (getDefaultLibraryViewSettings LibraryTab.Movies).ImageType =
        ImageType.Primary) :=
  ⟨by decide,
   (getFieldsQuery_spec LibraryTab.Movies
     (getDefaultLibraryViewSettings LibraryTab.Movies)).2.2.2.2 (by decide)⟩

/-- Claim C5: the alphabet query emits neither bound when no alphabet is
selected, the exclusive upper bound `"A"` (and no prefix constraint) for the
`#` sentinel, and a prefix constraint equal to the selected character (and
no upper bound) otherwise. -/
theorem getAlphaPickerQuery_spec (s : LibraryViewSettings) :
    (s.Alphabet = none →
      (getAlphaPickerQuery s).nameStartsWith = none ∧
      (getAlphaPickerQuery s).nameLessThan = none) ∧
    (s.Alphabet = some "#" →
      (getAlphaPickerQuery s).nameLessThan = some "A" ∧
      (getAlphaPickerQuery s).nameStartsWith = none) ∧
    (∀ a : String, a ≠ "#" → s.Alphabet = some a →
      (getAlphaPickerQuery s).nameStartsWith = some a ∧
      (getAlphaPickerQuery s).nameLessThan = none) := by
  refine ⟨fun h => ?_, fun h => ?_, fun a ha h => ?_⟩
  · simp [getAlphaPickerQuery, h]
  · simp [getAlphaPickerQuery, h]
  · simp [getAlphaPickerQuery, h, ha]

/-- Claim C5 (witness): the theorem applied at a record whose alphabet
selection is the character `B`. -/
theorem getAlphaPickerQuery_spec_witness :
    ("B" : String) ≠ "#" ∧ alphabetBRec.Alphabet = some "B" ∧
    ((getAlphaPickerQuery alphabetBRec).nameStartsWith = some "B" ∧
      (getAlphaPickerQuery alphabetBRec).nameLessThan = none) :=
  ⟨by decide, rfl,
   (getAlphaPickerQuery_spec alphabetBRec).2.2 "B" (by decide) rfl⟩

/-- Claim C7: for the artists category the resolved card options always have
one label line and the year display off while keeping the record's title
visibility; for every other category the label line count is 2 when titles
are shown and 0 when hidden. -/
theorem getCardOptions_artists_spec (v : LibraryTab) (ct : Option String)
    (s : LibraryViewSettings) :
    ((getCardOptions LibraryTab.Artists ct s).lines = 1 ∧
     (getCardOptions LibraryTab.Artists ct s).showYear = false ∧
     (getCardOptions LibraryTab.Artists ct s).showTitle = s.ShowTitle) ∧
    (v ≠ LibraryTab.Artists →
      (getCardOptions v ct s).lines = if s.ShowTitle then 2 else 0) := by
  constructor
  · refine ⟨?_, ?_, ?_⟩ <;> simp [getCardOptions]
  · intro hv
    cases v <;> simp [getCardOptions] at hv ⊢

/-- Claim C7 (witness): the theorem applied at the movies category with a
defaulted record (titles shown). -/
theorem getCardOptions_artists_spec_witness :
    LibraryTab.Movies ≠ LibraryTab.Artists ∧
    (getCardOptions LibraryTab.Movies none
        (getDefaultLibraryViewSettings LibraryTab.Movies)).lines =
      (if (getDefaultLibraryViewSettings LibraryTab.Movies).ShowTitle
        then 2 else 0) :=
  ⟨by decide,
   (getCardOptions_artists_spec LibraryTab.Movies none
     (getDefaultLibraryViewSettings LibraryTab.Movies)).2 (by decide)⟩
